import Mathlib

/-! Verification of the KPI query handler (api/query.ts, aggregation revision
    "2026-01-15_agg_logic_v5_full_filters_w_AO"): the KPI registry, the filter
    compiler, the statement assembler and the submit/poll execution client are
    embedded as executable Lean definitions, and the spec's claims about them
    are settled below. HTTP transport, CORS and credential loading are
    upstream of the modelled core, as the spec's scope section sets out. -/

/-- Aggregation kind of a KPI; the source type is the union "SUM" | "AVG". -/
inductive Agg where
  | SUM : Agg
  | AVG : Agg
deriving DecidableEq

/-- Render the aggregation function name as interpolated into the SQL text. -/
def Agg.render : Agg → String
  | Agg.SUM => "SUM"
  | Agg.AVG => "AVG"

/-- One entry of the KPI registry (the KPI_MAP object value type). -/
structure KpiConfig where
  table : String
  col : String
  hasChannel : Bool
  geoColumn : String
  agg : Agg
deriving DecidableEq

/-- The KPI registry KPI_MAP: exact-match, case-sensitive lookup from the kpi
    key to its configuration; any unregistered key resolves to none. -/
def KPI_MAP (kpi : String) : Option KpiConfig :=
  if kpi = "volume" then some ⟨"mbmc_actuals_volume", "STRs", true, "WSLR_NBR", Agg.SUM⟩
  else if kpi = "revenue" then some ⟨"mbmc_actuals_revenue", "net_rev", false, "WSLR_NBR", Agg.SUM⟩
  else if kpi = "displays" then some ⟨"mbmc_actuals_displays", "displays", true, "WSLR_NBR", Agg.SUM⟩
  else if kpi = "share" then some ⟨"mbmc_actuals_bir", "shr", true, "WSLR_NBR", Agg.AVG⟩
  else if kpi = "adshare" then some ⟨"mbmc_actuals_ads", "ad_share", true, "KAM", Agg.AVG⟩
  else if kpi = "pods" then some ⟨"mbmc_actuals_distro", "pods", true, "WSLR_NBR", Agg.SUM⟩
  else if kpi = "taps" then some ⟨"mbmc_actuals_distro", "taps", true, "WSLR_NBR", Agg.SUM⟩
  else if kpi = "avd" then some ⟨"mbmc_actuals_distro", "avd", true, "WSLR_NBR", Agg.AVG⟩
  else none

/-- The filters object of a kpi_request.v1 body. Every access in the source is
    optional-chained, so an absent filters object behaves exactly as this
    record with every field none. -/
structure Filters where
  megabrand : Option (List String)
  region : Option (List String)
  state : Option (List String)
  wholesaler_id : Option (List String)
  channel : Option (List String)
  include_ao : Option Bool
deriving DecidableEq

/-- A kpi_request.v1 body after the handler's destructuring defaults
    (groupBy "time", max_month "202512", scope "YTD"). groupBy and scope are
    kept as raw strings because the source only ever compares them against
    string literals and has a default branch for every other value. -/
structure KpiRequestV1 where
  kpi : String
  groupBy : String
  max_month : String
  scope : String
  filters : Filters
deriving DecidableEq

/-- Character-level embedding of s.replace with the global single-quote
    pattern and the doubled-quote replacement: every single quote in the
    value is doubled. -/
def escChars : List Char → List Char
  | [] => []
  | c :: cs => if c = '\'' then '\'' :: '\'' :: escChars cs else c :: escChars cs

/-- Quote-escape one data value for interpolation: wrap in single quotes with
    every internal single quote doubled, as in the source's map over each
    filter list. -/
def escapeValue (s : String) : String :=
  String.mk ('\'' :: (escChars s.data ++ ['\'']))

/-- The joined, escaped value list placed between the parentheses of an IN
    predicate (the source's .map(...).join(",")). -/
def inList (vals : List String) : String :=
  String.intercalate "," (vals.map escapeValue)

/-- The time-scope predicate. The source tests scope === "MTD" and treats any
    other value through the YTD branch; startOfYear is max_month.substring(0,4)
    with "01" appended. max_month is interpolated verbatim, exactly as in the
    source template. -/
def timeScope (scope max_month : String) : String :=
  if scope = "MTD" then "cal_yr_mo_nbr = " ++ max_month
  else "cal_yr_mo_nbr BETWEEN " ++ ((max_month.take 4 ++ "01") ++ (" AND " ++ max_month))

/-- The segment-exclusion predicate pushed unless include_ao is exactly true. -/
def aoExclusion : String := "megabrand != 'AO'"

/-- The conditions contributed by one value-list filter: one IN predicate over
    the escaped values when the list is present and non-empty, nothing
    otherwise. `pre` is the fixed head of the source template, for example
    "megabrand IN (". -/
def listCond (pre : String) (vals : Option (List String)) : List String :=
  match vals with
  | some l => if 0 < l.length then [pre ++ (inList l ++ ")")] else []
  | none => []

/-- The conditions contributed by the channel filter: the IN predicate when
    the KPI has a channel dimension, and the always-false predicate 1=0 when
    it does not (the source's safe fallback returning no data). -/
def channelCond (config : KpiConfig) (vals : Option (List String)) : List String :=
  match vals with
  | some l =>
    if 0 < l.length then
      if config.hasChannel then ["channel IN (" ++ (inList l ++ ")")] else ["1=0"]
    else []
  | none => []

/-- The conjunct list built by the handler, in source order: 1=1, the time
    scope, the AO toggle, then the megabrand, region, state, wholesaler and
    channel filters. The list is joined with " AND " into the WHERE clause. -/
def conditions (config : KpiConfig) (f : Filters) (scope max_month : String) : List String :=
  "1=1" :: timeScope scope max_month ::
    ((if f.include_ao = some true then [] else [aoExclusion])
      ++ listCond "megabrand IN (" f.megabrand
      ++ listCond "sls_regn_cd IN (" f.region
      ++ listCond "mktng_st_cd IN (" f.state
      ++ listCond "wslr_nbr IN (" f.wholesaler_id
      ++ channelCond config f.channel)

/-- The three grouping-dependent clauses of the statement. -/
structure Clauses where
  selectClause : String
  groupByClause : String
  orderByClause : String
deriving DecidableEq

/-- The switch over groupBy. orderByClause starts as "ORDER BY val_cy DESC"
    and is only changed by the total and time/default branches, exactly as in
    the source. -/
def grouping (config : KpiConfig) (groupBy : String) : Clauses :=
  if groupBy = "megabrand" then ⟨"megabrand as dimension", "GROUP BY megabrand", "ORDER BY val_cy DESC"⟩
  else if groupBy = "region" then ⟨"sls_regn_cd as dimension", "GROUP BY sls_regn_cd", "ORDER BY val_cy DESC"⟩
  else if groupBy = "state" then ⟨"mktng_st_cd as dimension", "GROUP BY mktng_st_cd", "ORDER BY val_cy DESC"⟩
  else if groupBy = "wholesaler" then ⟨config.geoColumn ++ " as dimension", "GROUP BY " ++ config.geoColumn, "ORDER BY val_cy DESC"⟩
  else if groupBy = "channel" then
    if config.hasChannel then ⟨"channel as dimension", "GROUP BY channel", "ORDER BY val_cy DESC"⟩
    else ⟨"'All Channels' as dimension", "", "ORDER BY val_cy DESC"⟩
  else if groupBy = "total" then ⟨"'Total' as dimension", "", ""⟩
  else ⟨"cal_yr_mo_nbr as dimension", "GROUP BY cal_yr_mo_nbr", "ORDER BY cal_yr_mo_nbr ASC"⟩

/-- The fully-qualified source table name. -/
def tableName (config : KpiConfig) : String :=
  "commercial_dev.capabilities." ++ config.table

/-- The current-period value column, derived by the fixed naming convention. -/
def colCy (config : KpiConfig) : String := config.col ++ "_CY"

/-- The prior-period value column, derived by the fixed naming convention. -/
def colLy (config : KpiConfig) : String := config.col ++ "_LY"

/-- The assembled statement text, with the whitespace of the source's template
    literal kept verbatim. -/
def finalSql (config : KpiConfig) (f : Filters) (groupBy scope max_month : String) : String :=
  let cl := grouping config groupBy
  "\n      SELECT " ++ cl.selectClause ++ ",\n      "
    ++ config.agg.render ++ "(" ++ colCy config ++ ") as val_cy,\n      "
    ++ config.agg.render ++ "(" ++ colLy config ++ ") as val_ly\n      FROM "
    ++ tableName config ++ "\n      WHERE "
    ++ String.intercalate " AND " (conditions config f scope max_month)
    ++ "\n      " ++ cl.groupByClause
    ++ "\n      " ++ cl.orderByClause
    ++ "\n      LIMIT 1000\n    "

/-- The terminal-state test of the loop: the includes check over SUCCEEDED,
    FAILED and CANCELED. A missing state (optional chaining yielding
    undefined) is not terminal. -/
def isTerminalState : Option String → Bool
  | some s => s = "SUCCEEDED" || s = "FAILED" || s = "CANCELED"
  | none => false

/-- How the poll loop exited: the last observed state field, the virtual
    clock at exit, and how many status-fetch calls were made. -/
structure PollExit where
  last : Option String
  time : Nat
  polls : Nat
deriving DecidableEq

/-- The poll loop: while the clock is before the deadline, break on a terminal
    state, otherwise sleep 350 ms and fetch the statement status once more.
    `states i` is the state field of the i-th poll response; the clock
    advances by the slept 350 ms per iteration (the fetch itself only adds
    time, which can only shorten the loop). Totality of this definition is
    checked by Lean through the strictly shrinking time left to the
    deadline. -/
def pollLoop (states : Nat → Option String) (deadline now i : Nat) (last : Option String) : PollExit :=
  if h : now < deadline then
    if isTerminalState last then ⟨last, now, i⟩
    else pollLoop states deadline (now + 350) (i + 1) (states i)
  else ⟨last, now, i⟩
termination_by deadline - now
decreasing_by simp_wf; omega

/-- What the submit call returned: ok is submitRes.ok (a 2xx status), status
    the HTTP status, and statement_id / state the optional fields of the
    parsed response body. -/
structure SubmitResult where
  ok : Bool
  status : Nat
  statement_id : Option String
  state : Option String
deriving DecidableEq

/-- The remote statement-execution service as one handler run observes it:
    the submit response, the wall-clock time at submission, and the state
    field of each successive poll response. -/
structure RemoteEnv where
  submit : SubmitResult
  submitTime : Nat
  pollStates : Nat → Option String

/-- The fields of the handler's terminal JSON response that the claims speak
    about; a none field is absent from the body. -/
structure Response where
  status : Nat
  ok : Bool
  error : Option String
  sql : Option String
  metaSql : Option String
  stateField : Option (Option String)
  details : Option String
deriving DecidableEq

/-- One run's observable outcome: the terminal response, whether the submit
    call was made, and how many poll (status-fetch) calls were made. -/
structure HandlerTrace where
  response : Response
  submitCalled : Bool
  polls : Nat
deriving DecidableEq

/-- The poll phase of one run: deadline is Date.now() + 15000 at submission,
    the initial last-known status is the submit response itself. -/
def pollExitOf (env : RemoteEnv) : PollExit :=
  pollLoop env.pollStates (env.submitTime + 15000) env.submitTime 0 env.submit.state

/-- The handler from the KPI lookup onward (method, CORS, ping and credential
    handling are upstream of the modelled core): resolve the KPI or answer
    400; assemble the SQL; submit; on a non-2xx submit answer with the
    mirrored status and the SQL; without a statement_id throw, which the
    enclosing try answers as a 500; otherwise poll and answer 200 on
    SUCCEEDED and 502 with the last state otherwise. -/
def runHandler (req : KpiRequestV1) (env : RemoteEnv) : HandlerTrace :=
  match KPI_MAP req.kpi with
  | none =>
    ⟨⟨400, false, some ("KPI '" ++ req.kpi ++ "' is not configured in API map."), none, none, none, none⟩, false, 0⟩
  | some config =>
    let sql := finalSql config req.filters req.groupBy req.scope req.max_month
    if env.submit.ok = false then
      ⟨⟨env.submit.status, false, some "Databricks submit failed", some sql, none, none, none⟩, true, 0⟩
    else
      match env.submit.statement_id with
      | none => ⟨⟨500, false, some "Internal Server Error", none, none, none, some "No statement_id returned"⟩, true, 0⟩
      | some _ =>
        let r := pollExitOf env
        if r.last = some "SUCCEEDED" then
          ⟨⟨200, true, none, none, some sql, none, none⟩, true, r.polls⟩
        else
          ⟨⟨502, false, some "Query timed out or failed", none, none, some r.last, none⟩, true, r.polls⟩

/-- Collapse doubled single quotes: the value-recovery step of SQL string
    literal parsing. -/
def unescChars : List Char → List Char
  | [] => []
  | [c] => [c]
  | c1 :: c2 :: cs =>
    if c1 = '\'' ∧ c2 = '\'' then '\'' :: unescChars cs
    else c1 :: unescChars (c2 :: cs)

/-- Parse a SQL single-quoted string literal back into the value it denotes:
    the text must start and end with a single quote (at distinct positions);
    the outer quotes are stripped and doubled quotes collapsed. -/
def parseSqlLiteral (s : String) : Option String :=
  if s.data.head? = some '\'' ∧ s.data.getLast? = some '\'' ∧ 2 ≤ s.data.length then
    some (String.mk (unescChars s.data.tail.dropLast))
  else none

/-- Whether pat occurs as a contiguous segment of s. -/
def hasSegment (pat : List Char) : List Char → Bool
  | [] => pat.isEmpty
  | c :: cs => pat.isPrefixOf (c :: cs) || hasSegment pat cs

/-- The registry entry of the volume KPI, used by the concrete scenarios. -/
def volumeConfig : KpiConfig := ⟨"mbmc_actuals_volume", "STRs", true, "WSLR_NBR", Agg.SUM⟩

/-- The registry entry of the revenue KPI, the one KPI without a channel
    dimension, used by the concrete scenarios. -/
def revenueConfig : KpiConfig := ⟨"mbmc_actuals_revenue", "net_rev", false, "WSLR_NBR", Agg.SUM⟩

/-- A request body carrying no filters at all. -/
def noFilters : Filters := ⟨none, none, none, none, none, none⟩

/-- A remote service whose submit succeeds synchronously-pending and whose
    polls never reach a terminal state, for the concrete witnesses. -/
def envRunning : RemoteEnv := ⟨⟨true, 200, some "stmt-1", some "PENDING"⟩, 0, fun _ => some "RUNNING"⟩

/-- A remote service that rejects the submission with a 403, for the concrete
    witnesses. -/
def envRejecting : RemoteEnv := ⟨⟨false, 403, none, none⟩, 0, fun _ => none⟩

/-- A remote service that accepts the submission but returns no statement_id,
    for the concrete witnesses. -/
def envNoHandle : RemoteEnv := ⟨⟨true, 200, none, some "PENDING"⟩, 0, fun _ => some "RUNNING"⟩

/-- A filters object carrying exactly one channel value, for the concrete
    witnesses. -/
def channelOnlyFilters : Filters := ⟨none, none, none, none, some ["On-Premise"], none⟩

/-! Helper lemmas: compiled predicate fragments are told apart by a character
    position inside their fixed template heads. -/

/-- A string extending the head p differs from q whenever p and q already
    disagree at position i of p. -/
theorem append_ne_of_idx (p q : String) (i : Nat) (hp : i < p.data.length)
    (h : p.data[i]? ≠ q.data[i]?) : ∀ x : String, p ++ x ≠ q := by
  intro x he
  apply h
  have hd : p.data ++ x.data = q.data := by
    have h2 := congrArg String.data he
    rwa [String.data_append] at h2
  rw [← hd, List.getElem?_append_left hp]

/-- Strings extending heads p and q differ whenever p and q already disagree
    at a position inside both. -/
theorem append_ne_append_of_idx (p q : String) (i : Nat) (hp : i < p.data.length)
    (hq : i < q.data.length) (h : p.data[i]? ≠ q.data[i]?) :
    ∀ x y : String, p ++ x ≠ q ++ y := by
  intro x y he
  apply h
  have hd : p.data ++ x.data = q.data ++ y.data := by
    have h2 := congrArg String.data he
    rwa [String.data_append, String.data_append] at h2
  calc p.data[i]? = (p.data ++ x.data)[i]? := (List.getElem?_append_left hp).symm
    _ = (q.data ++ y.data)[i]? := by rw [hd]
    _ = q.data[i]? := List.getElem?_append_left hq

/-- Every condition a value-list filter contributes extends its template head. -/
theorem mem_listCond (pre q : String) (v : Option (List String))
    (hm : q ∈ listCond pre v) : ∃ x : String, q = pre ++ x := by
  cases v with
  | none => simp [listCond] at hm
  | some l =>
    simp only [listCond] at hm
    split at hm
    · exact ⟨inList l ++ ")", List.mem_singleton.mp hm⟩
    · simp at hm

/-- Every condition the channel filter contributes is either a channel IN
    predicate (and then the KPI has the channel dimension) or the
    always-false predicate. -/
theorem mem_channelCond (config : KpiConfig) (q : String) (v : Option (List String))
    (hm : q ∈ channelCond config v) :
    ((∃ x : String, q = "channel IN (" ++ x) ∧ config.hasChannel = true) ∨ q = "1=0" := by
  cases v with
  | none => simp [channelCond] at hm
  | some l =>
    simp only [channelCond] at hm
    split at hm
    · split at hm
      next hch => exact Or.inl ⟨⟨inList l ++ ")", List.mem_singleton.mp hm⟩, hch⟩
      next => exact Or.inr (List.mem_singleton.mp hm)
    · simp at hm

/-- Exhaustive shape analysis of the compiled conjunct list: every member is
    the guard 1=1, the time-scope predicate, the AO exclusion (only when
    include_ao is not exactly true), one of the four plain IN predicates, a
    channel IN predicate (only when the KPI has the channel dimension), or
    the always-false predicate. -/
theorem conditions_shapes (config : KpiConfig) (f : Filters) (scope mm q : String)
    (hm : q ∈ conditions config f scope mm) :
    q = "1=1" ∨ q = timeScope scope mm ∨
    (q = aoExclusion ∧ f.include_ao ≠ some true) ∨
    (∃ x, q = "megabrand IN (" ++ x) ∨ (∃ x, q = "sls_regn_cd IN (" ++ x) ∨
    (∃ x, q = "mktng_st_cd IN (" ++ x) ∨ (∃ x, q = "wslr_nbr IN (" ++ x) ∨
    ((∃ x, q = "channel IN (" ++ x) ∧ config.hasChannel = true) ∨ q = "1=0" := by
  simp only [conditions, List.mem_cons, List.mem_append, or_assoc] at hm
  rcases hm with h | h | h | h | h | h | h | h
  · exact Or.inl h
  · exact Or.inr (Or.inl h)
  · split at h
    · simp at h
    next hne => exact Or.inr (Or.inr (Or.inl ⟨List.mem_singleton.mp h, hne⟩))
  · exact Or.inr (Or.inr (Or.inr (Or.inl (mem_listCond _ _ _ h))))
  · exact Or.inr (Or.inr (Or.inr (Or.inr (Or.inl (mem_listCond _ _ _ h)))))
  · exact Or.inr (Or.inr (Or.inr (Or.inr (Or.inr (Or.inl (mem_listCond _ _ _ h))))))
  · exact Or.inr (Or.inr (Or.inr (Or.inr (Or.inr (Or.inr (Or.inl (mem_listCond _ _ _ h)))))))
  · rcases mem_channelCond _ _ _ h with h2 | h2
    · exact Or.inr (Or.inr (Or.inr (Or.inr (Or.inr (Or.inr (Or.inr (Or.inl h2)))))))
    · exact Or.inr (Or.inr (Or.inr (Or.inr (Or.inr (Or.inr (Or.inr (Or.inr h2)))))))

/-- The AO exclusion is a compiled conjunct exactly when include_ao is not
    exactly true. -/
theorem ao_mem_conditions_iff (config : KpiConfig) (f : Filters) (scope mm : String) :
    aoExclusion ∈ conditions config f scope mm ↔ f.include_ao ≠ some true := by
  constructor
  · intro hm
    rcases conditions_shapes config f scope mm aoExclusion hm with h | h | h | h | h | h | h | h | h
    · exact absurd h (by decide)
    · exfalso
      revert h
      unfold timeScope
      split
      · exact fun h => append_ne_of_idx "cal_yr_mo_nbr = " aoExclusion 0 (by decide) (by decide) _ h.symm
      · exact fun h => append_ne_of_idx "cal_yr_mo_nbr BETWEEN " aoExclusion 0 (by decide) (by decide) _ h.symm
    · exact h.2
    · rcases h with ⟨x, hx⟩
      exact absurd hx.symm (append_ne_of_idx "megabrand IN (" aoExclusion 10 (by decide) (by decide) x)
    · rcases h with ⟨x, hx⟩
      exact absurd hx.symm (append_ne_of_idx "sls_regn_cd IN (" aoExclusion 0 (by decide) (by decide) x)
    · rcases h with ⟨x, hx⟩
      exact absurd hx.symm (append_ne_of_idx "mktng_st_cd IN (" aoExclusion 1 (by decide) (by decide) x)
    · rcases h with ⟨x, hx⟩
      exact absurd hx.symm (append_ne_of_idx "wslr_nbr IN (" aoExclusion 0 (by decide) (by decide) x)
    · rcases h.1 with ⟨x, hx⟩
      exact absurd hx.symm (append_ne_of_idx "channel IN (" aoExclusion 0 (by decide) (by decide) x)
    · exact absurd h (by decide)
  · intro hne
    unfold conditions
    rw [if_neg hne]
    simp

/-- Iteration bound of the poll loop, scaled by the fixed 350 ms interval:
    fuel-indexed induction on the time left to the deadline. -/
theorem pollLoop_polls_mul_le (states : Nat → Option String) (deadline : Nat) :
    ∀ fuel now i last, deadline - now ≤ fuel →
      (pollLoop states deadline now i last).polls * 350 ≤ i * 350 + (deadline - now) + 349 := by
  intro fuel
  induction fuel with
  | zero =>
    intro now i last h
    unfold pollLoop
    rw [dif_neg (by omega)]
    show i * 350 ≤ i * 350 + (deadline - now) + 349
    omega
  | succ n ih =>
    intro now i last h
    unfold pollLoop
    split
    next h1 =>
      split
      · show i * 350 ≤ i * 350 + (deadline - now) + 349
        omega
      · have hb := ih (now + 350) (i + 1) (states i) (by omega)
        omega
    next h1 =>
      show i * 350 ≤ i * 350 + (deadline - now) + 349
      omega

/-- The poll loop stops only on a terminal state or once the clock has
    reached the deadline. -/
theorem pollLoop_exit_reason (states : Nat → Option String) (deadline : Nat) :
    ∀ fuel now i last, deadline - now ≤ fuel →
      isTerminalState (pollLoop states deadline now i last).last = true ∨
        deadline ≤ (pollLoop states deadline now i last).time := by
  intro fuel
  induction fuel with
  | zero =>
    intro now i last h
    unfold pollLoop
    rw [dif_neg (by omega)]
    right
    show deadline ≤ now
    omega
  | succ n ih =>
    intro now i last h
    unfold pollLoop
    split
    next h1 =>
      split
      next ht => exact Or.inl ht
      next => exact ih (now + 350) (i + 1) (states i) (by omega)
    next h1 =>
      right
      show deadline ≤ now
      omega

/-- The loop exits at once, with no further poll call, when the last-known
    state is already terminal on entering before the deadline. -/
theorem pollLoop_immediate (states : Nat → Option String) (deadline now i : Nat)
    (last : Option String) (h1 : now < deadline) (h2 : isTerminalState last = true) :
    pollLoop states deadline now i last = ⟨last, now, i⟩ := by
  unfold pollLoop
  rw [dif_pos h1, if_pos h2]

/-- At most 43 poll calls fit between submission and the fixed 15 s deadline
    with the fixed 350 ms sleep per iteration. -/
theorem pollExitOf_polls_le (env : RemoteEnv) : (pollExitOf env).polls ≤ 43 := by
  have h := pollLoop_polls_mul_le env.pollStates (env.submitTime + 15000)
    15000 env.submitTime 0 env.submit.state (by omega)
  unfold pollExitOf
  omega

/-- C2: once a statement is submitted, the poll phase makes at most 43
    status-fetch calls (the fixed 350 ms interval against the fixed 15 s
    deadline, so there is no unbounded retry), it stops only on a state in
    SUCCEEDED/FAILED/CANCELED or when the deadline is reached, a loop that
    never saw a terminal state is answered as the local timeout (the 502
    query-timed-out response, the spec's TIMED_OUT), and a terminal state
    already present on the submit response ends the loop at once with no
    poll call. -/
theorem C2_poll_bounded (req : KpiRequestV1) (env : RemoteEnv) (config : KpiConfig)
    (hk : KPI_MAP req.kpi = some config) (hok : env.submit.ok = true)
    (hsid : env.submit.statement_id.isSome = true) :
    (runHandler req env).polls = (pollExitOf env).polls ∧
    (pollExitOf env).polls ≤ 43 ∧
    (isTerminalState (pollExitOf env).last = true ∨
      env.submitTime + 15000 ≤ (pollExitOf env).time) ∧
    (isTerminalState (pollExitOf env).last = false →
      (runHandler req env).response.status = 502 ∧
      (runHandler req env).response.error = some "Query timed out or failed") ∧
    (isTerminalState env.submit.state = true →
      pollExitOf env = ⟨env.submit.state, env.submitTime, 0⟩) := by
  obtain ⟨sid, hs⟩ := Option.isSome_iff_exists.mp hsid
  have hrun : runHandler req env =
      (if (pollExitOf env).last = some "SUCCEEDED" then
        ⟨⟨200, true, none, none,
          some (finalSql config req.filters req.groupBy req.scope req.max_month), none, none⟩,
          true, (pollExitOf env).polls⟩
      else
        ⟨⟨502, false, some "Query timed out or failed", none, none,
          some (pollExitOf env).last, none⟩, true, (pollExitOf env).polls⟩) := by
    simp [runHandler, hk, hok, hs]
  refine ⟨?_, pollExitOf_polls_le env, ?_, ?_, ?_⟩
  · rw [hrun]
    split <;> rfl
  · unfold pollExitOf
    exact pollLoop_exit_reason env.pollStates (env.submitTime + 15000)
      15000 env.submitTime 0 env.submit.state (by omega)
  · intro hnt
    have hne : ¬ (pollExitOf env).last = some "SUCCEEDED" := by
      intro he
      rw [he] at hnt
      exact absurd hnt (by decide)
    rw [hrun, if_neg hne]
    exact ⟨rfl, rfl⟩
  · intro ht
    unfold pollExitOf
    exact pollLoop_immediate env.pollStates (env.submitTime + 15000)
      env.submitTime 0 env.submit.state (by omega) ht

/-- Witness for the poll bound at a concrete request against a remote service
    that never reaches a terminal state. -/
theorem C2_poll_bounded_witness :
    (runHandler ⟨"volume", "time", "202512", "YTD", noFilters⟩ envRunning).polls
        = (pollExitOf envRunning).polls ∧
    (pollExitOf envRunning).polls ≤ 43 :=
  ⟨(C2_poll_bounded ⟨"volume", "time", "202512", "YTD", noFilters⟩ envRunning
      volumeConfig rfl rfl rfl).1,
   (C2_poll_bounded ⟨"volume", "time", "202512", "YTD", noFilters⟩ envRunning
      volumeConfig rfl rfl rfl).2.1⟩

/-- C3: with reference month 202503 the compiled time-scope predicate (always
    the second conjunct of the compiled statement) is exactly the equality
    cal_yr_mo_nbr = 202503 under MTD (no range), and exactly the closed range
    cal_yr_mo_nbr BETWEEN 202501 AND 202503 under YTD, for every KPI and
    every filter set. -/
theorem C3_time_scope_predicates (config : KpiConfig) (f : Filters) :
    (conditions config f "MTD" "202503")[1]? = some "cal_yr_mo_nbr = 202503" ∧
    (conditions config f "YTD" "202503")[1]? = some "cal_yr_mo_nbr BETWEEN 202501 AND 202503" := by
  have h1 : timeScope "MTD" "202503" = "cal_yr_mo_nbr = 202503" := by decide
  have h2 : timeScope "YTD" "202503" = "cal_yr_mo_nbr BETWEEN 202501 AND 202503" := by decide
  constructor
  · simp [conditions, h1]
  · simp [conditions, h2]

/-- C4: the compiled statement carries the segment-exclusion predicate
    megabrand != 'AO' among its WHERE conjuncts (they are joined verbatim
    with AND) exactly when include_ao is omitted (none), false, or anything
    other than exactly true; when include_ao is exactly true the predicate is
    never emitted. -/
theorem C4_ao_toggle (config : KpiConfig) (f : Filters) (scope mm : String) :
    aoExclusion ∈ conditions config f scope mm ↔ f.include_ao ≠ some true :=
  ao_mem_conditions_iff config f scope mm

/-- C5: a non-empty channel filter on a KPI without the channel dimension
    compiles to the always-false predicate 1=0 among the conjuncts — the
    filter is neither dropped nor applied to the nonexistent channel column
    (no channel IN predicate occurs anywhere in the conjunct list) — no error
    is raised (any request resolving to this KPI still reaches the submit
    call), and a groupBy of channel on such a KPI selects the literal
    All Channels label with an empty GROUP BY clause. -/
theorem C5_channel_capability_guard (config : KpiConfig) (f : Filters) (scope mm : String)
    (l : List String) (hch : config.hasChannel = false) (hv : f.channel = some l)
    (hl : 0 < l.length) :
    channelCond config f.channel = ["1=0"] ∧
    "1=0" ∈ conditions config f scope mm ∧
    (∀ x : String, ("channel IN (" ++ x) ∉ conditions config f scope mm) ∧
    grouping config "channel" = ⟨"'All Channels' as dimension", "", "ORDER BY val_cy DESC"⟩ ∧
    (∀ (req : KpiRequestV1) (env : RemoteEnv), KPI_MAP req.kpi = some config →
      (runHandler req env).submitCalled = true) := by
  have hcc : channelCond config f.channel = ["1=0"] := by
    rw [hv]
    simp only [channelCond]
    rw [if_pos hl, hch]
    simp
  refine ⟨hcc, ?_, ?_, ?_, ?_⟩
  · simp [conditions, hcc]
  · intro x hm
    rcases conditions_shapes config f scope mm _ hm with h | h | h | h | h | h | h | h | h
    · exact append_ne_of_idx "channel IN (" "1=1" 0 (by decide) (by decide) x h
    · revert h
      unfold timeScope
      split
      · exact fun h =>
          append_ne_append_of_idx "channel IN (" "cal_yr_mo_nbr = " 1
            (by decide) (by decide) (by decide) x _ h
      · exact fun h =>
          append_ne_append_of_idx "channel IN (" "cal_yr_mo_nbr BETWEEN " 1
            (by decide) (by decide) (by decide) x _ h
    · exact append_ne_of_idx "channel IN (" aoExclusion 0 (by decide) (by decide) x h.1
    · rcases h with ⟨y, hy⟩
      exact append_ne_append_of_idx "channel IN (" "megabrand IN (" 0
        (by decide) (by decide) (by decide) x y hy
    · rcases h with ⟨y, hy⟩
      exact append_ne_append_of_idx "channel IN (" "sls_regn_cd IN (" 0
        (by decide) (by decide) (by decide) x y hy
    · rcases h with ⟨y, hy⟩
      exact append_ne_append_of_idx "channel IN (" "mktng_st_cd IN (" 0
        (by decide) (by decide) (by decide) x y hy
    · rcases h with ⟨y, hy⟩
      exact append_ne_append_of_idx "channel IN (" "wslr_nbr IN (" 0
        (by decide) (by decide) (by decide) x y hy
    · rw [hch] at h
      exact absurd h.2 (by decide)
    · exact append_ne_of_idx "channel IN (" "1=0" 0 (by decide) (by decide) x h
  · unfold grouping
    rw [if_neg (by decide), if_neg (by decide), if_neg (by decide), if_neg (by decide),
      if_pos rfl, hch]
    simp
  · intro req env hreq
    simp only [runHandler, hreq]
    split
    · rfl
    · split
      · rfl
      · split <;> rfl

/-- Witness for the channel capability guard: the revenue KPI (the registry's
    one KPI with hasChannel false) with a one-element channel filter. -/
theorem C5_channel_capability_guard_witness :
    channelCond revenueConfig channelOnlyFilters.channel = ["1=0"] ∧
    "1=0" ∈ conditions revenueConfig channelOnlyFilters "YTD" "202512" :=
  ⟨(C5_channel_capability_guard revenueConfig channelOnlyFilters "YTD" "202512"
      ["On-Premise"] rfl rfl (by decide)).1,
   (C5_channel_capability_guard revenueConfig channelOnlyFilters "YTD" "202512"
      ["On-Premise"] rfl rfl (by decide)).2.1⟩

/-- C6: a request whose kpi string is not a key of the registry is answered
    with a client 400 before any remote call (the submit call is never made
    and no poll call happens); and every registered key resolves to a
    descriptor whose dataset table and value column are non-empty. -/
theorem C6_registry_contract :
    (∀ (req : KpiRequestV1) (env : RemoteEnv), KPI_MAP req.kpi = none →
      (runHandler req env).response.status = 400 ∧
      (runHandler req env).submitCalled = false ∧
      (runHandler req env).polls = 0) ∧
    (∀ (k : String) (config : KpiConfig), KPI_MAP k = some config →
      config.table ≠ "" ∧ config.col ≠ "") := by
  constructor
  · intro req env h
    simp [runHandler, h]
  · intro k config h
    unfold KPI_MAP at h
    repeat' split at h
    all_goals
      first
        | (injection h with h2; subst h2; exact ⟨by decide, by decide⟩)
        | exact Option.noConfusion h

/-- C7: a non-2xx submit response is answered at once with the remote status
    mirrored, the submit-failed error and the originally generated SQL text
    in the body, and no poll (status-fetch) call is ever made. -/
theorem C7_submit_failure_mirrors (req : KpiRequestV1) (env : RemoteEnv) (config : KpiConfig)
    (hk : KPI_MAP req.kpi = some config) (hfail : env.submit.ok = false) :
    (runHandler req env).response.status = env.submit.status ∧
    (runHandler req env).response.sql
      = some (finalSql config req.filters req.groupBy req.scope req.max_month) ∧
    (runHandler req env).response.error = some "Databricks submit failed" ∧
    (runHandler req env).polls = 0 := by
  simp [runHandler, hk, hfail]

/-- Witness for the submit-failure path: a concrete volume request against a
    remote service answering 403 at submission. -/
theorem C7_submit_failure_mirrors_witness :
    (runHandler ⟨"volume", "time", "202512", "YTD", noFilters⟩ envRejecting).response.status = 403 ∧
    (runHandler ⟨"volume", "time", "202512", "YTD", noFilters⟩ envRejecting).polls = 0 :=
  ⟨(C7_submit_failure_mirrors ⟨"volume", "time", "202512", "YTD", noFilters⟩
      envRejecting volumeConfig rfl rfl).1,
   (C7_submit_failure_mirrors ⟨"volume", "time", "202512", "YTD", noFilters⟩
      envRejecting volumeConfig rfl rfl).2.2.2⟩

/-- C10: a 2xx submit response that lacks a statement_id (with the state
    still non-terminal) makes the handler throw internally: it answers 500
    with the generic internal-error body carrying the thrown message as
    details, makes no poll call, and does not answer 502. -/
theorem C10_missing_statement_id (req : KpiRequestV1) (env : RemoteEnv) (config : KpiConfig)
    (hk : KPI_MAP req.kpi = some config) (hok : env.submit.ok = true)
    (hsid : env.submit.statement_id = none)
    (_hnt : isTerminalState env.submit.state = false) :
    (runHandler req env).response.status = 500 ∧
    (runHandler req env).response.error = some "Internal Server Error" ∧
    (runHandler req env).response.details = some "No statement_id returned" ∧
    (runHandler req env).polls = 0 ∧
    (runHandler req env).response.status ≠ 502 := by
  simp [runHandler, hk, hok, hsid]

/-- Witness for the missing statement_id path: a concrete volume request
    against a remote service answering 200 with no statement_id and a
    PENDING state. -/
theorem C10_missing_statement_id_witness :
    (runHandler ⟨"volume", "time", "202512", "YTD", noFilters⟩ envNoHandle).response.status = 500 ∧
    (runHandler ⟨"volume", "time", "202512", "YTD", noFilters⟩ envNoHandle).polls = 0 :=
  ⟨(C10_missing_statement_id ⟨"volume", "time", "202512", "YTD", noFilters⟩
      envNoHandle volumeConfig rfl rfl rfl rfl).1,
   (C10_missing_statement_id ⟨"volume", "time", "202512", "YTD", noFilters⟩
      envNoHandle volumeConfig rfl rfl rfl rfl).2.2.2.1⟩

set_option maxRecDepth 40000 in
/-- C9: the volume/megabrand/YTD/202506 request with no filters compiles to
    the expected statement: grouped by megabrand, SUM over STRs_CY and
    STRs_LY, the closed range 202501..202506, the AO exclusion, descending
    order by current value and the fixed LIMIT 1000 row cap. -/
theorem C9_volume_megabrand_scenario :
    KPI_MAP "volume" = some volumeConfig ∧
    volumeConfig.agg = Agg.SUM ∧
    colCy volumeConfig = "STRs_CY" ∧
    colLy volumeConfig = "STRs_LY" ∧
    conditions volumeConfig noFilters "YTD" "202506"
      = ["1=1", "cal_yr_mo_nbr BETWEEN 202501 AND 202506", "megabrand != 'AO'"] ∧
    grouping volumeConfig "megabrand"
      = ⟨"megabrand as dimension", "GROUP BY megabrand", "ORDER BY val_cy DESC"⟩ ∧
    finalSql volumeConfig noFilters "megabrand" "YTD" "202506"
      = "\n      SELECT megabrand as dimension,\n      SUM(STRs_CY) as val_cy,\n      SUM(STRs_LY) as val_ly\n      FROM commercial_dev.capabilities.mbmc_actuals_volume\n      WHERE 1=1 AND cal_yr_mo_nbr BETWEEN 202501 AND 202506 AND megabrand != 'AO'\n      GROUP BY megabrand\n      ORDER BY val_cy DESC\n      LIMIT 1000\n    " := by
  decide

set_option maxRecDepth 40000 in
/-- C1 (failing-input evaluation): with the caller-supplied max_month token
    "202512 OR 1=1" the handler interpolates the token verbatim: the compiled
    time-scope conjunct is the raw text cal_yr_mo_nbr = 202512 OR 1=1, that
    raw fragment occurs in the assembled SQL text, and its single-quoted
    escaped form does not occur anywhere in it — a user-controlled value
    reaches the SQL text unescaped, against the allowlist-or-escaped
    invariant. -/
theorem C1_max_month_unescaped :
    (conditions volumeConfig noFilters "MTD" "202512 OR 1=1")[1]?
      = some "cal_yr_mo_nbr = 202512 OR 1=1" ∧
    hasSegment "cal_yr_mo_nbr = 202512 OR 1=1".data
      (finalSql volumeConfig noFilters "time" "MTD" "202512 OR 1=1").data = true ∧
    hasSegment (escapeValue "202512 OR 1=1").data
      (finalSql volumeConfig noFilters "time" "MTD" "202512 OR 1=1").data = false := by
  decide

/-- Escaping a cons always yields a cons, whatever the first character is. -/
theorem escChars_cons_shape (c : Char) (cs : List Char) :
    ∃ d ds, escChars (c :: cs) = d :: ds := by
  simp only [escChars]
  split
  · exact ⟨_, _, rfl⟩
  · exact ⟨_, _, rfl⟩

/-- Equation of escChars at a leading single quote. -/
theorem escChars_quote (cs : List Char) :
    escChars ('\'' :: cs) = '\'' :: '\'' :: escChars cs := by
  simp [escChars]

/-- Equation of escChars at a leading non-quote character. -/
theorem escChars_other (c : Char) (cs : List Char) (h : c ≠ '\'') :
    escChars (c :: cs) = c :: escChars cs := by
  simp [escChars, h]

/-- Equation of unescChars at a leading doubled quote. -/
theorem unescChars_two_quotes (cs : List Char) :
    unescChars ('\'' :: '\'' :: cs) = '\'' :: unescChars cs := by
  simp [unescChars]

/-- Equation of unescChars at a leading non-quote character. -/
theorem unescChars_cons_of_ne (c d : Char) (cs : List Char) (h : c ≠ '\'') :
    unescChars (c :: d :: cs) = c :: unescChars (d :: cs) := by
  simp only [unescChars]
  rw [if_neg (fun hand => h hand.1)]

/-- Collapsing doubled quotes undoes quote doubling on the characters. -/
theorem unescChars_escChars (l : List Char) : unescChars (escChars l) = l := by
  induction l with
  | nil => rfl
  | cons c cs ih =>
    by_cases hc : c = '\''
    · subst hc
      rw [escChars_quote, unescChars_two_quotes, ih]
    · rw [escChars_other c cs hc]
      cases cs with
      | nil => rfl
      | cons d ds =>
        obtain ⟨e, es, hE⟩ := escChars_cons_shape d ds
        rw [hE, unescChars_cons_of_ne c e es hc, ← hE, ih]

/-- C8: escaping a filter value (wrap in single quotes, double every internal
    single quote) yields a SQL string literal that parses back (strip the
    outer quotes, collapse doubled quotes) to exactly the original value,
    for every string including ones containing single quotes. -/
theorem C8_escape_roundtrip (s : String) : parseSqlLiteral (escapeValue s) = some s := by
  have hdata : (escapeValue s).data = '\'' :: (escChars s.data ++ ['\'']) := rfl
  have hhead : (escapeValue s).data.head? = some '\'' := by rw [hdata]; rfl
  have hlast : (escapeValue s).data.getLast? = some '\'' := by
    rw [hdata, ← List.cons_append]
    exact List.getLast?_concat _
  have hlen : 2 ≤ (escapeValue s).data.length := by
    rw [hdata]
    simp only [List.length_cons, List.length_append, List.length_singleton]
    omega
  have htail : (escapeValue s).data.tail.dropLast = escChars s.data := by
    rw [hdata]
    simp only [List.tail_cons]
    exact List.dropLast_concat
  unfold parseSqlLiteral
  rw [if_pos ⟨hhead, hlast, hlen⟩, htail, unescChars_escChars]
